import Mathlib

/-
Shallow embedding of the ride-sharing dispatch simulation
(location.py, rider.py, driver.py, container.py, dispatcher.py, event.py).

Python machine model used throughout:
* Python `int` is unbounded, modelled by `Int` (timestamps, patience and
  speeds are documented as non-negative / positive ints and appear as such
  in hypotheses where needed).
* A Python function that can raise is modelled as returning
  `Except PyErr _`; the `PyErr` constructors name the concrete exception
  classes that the interpreter would raise (`IndexError` from
  `list.pop(0)` on an empty list, `AttributeError` from attribute access
  on `None` or on an object lacking the attribute, `NameError` from an
  undefined global, `TypeError` from an unsupported protocol).
  `EmptyQueueError` is modelled from the spec: the specification's §7
  names an `EmptyQueueError` kind for popping an empty OrderedQueue, but
  no such class is defined anywhere in the repository; the constructor
  exists only so that statements can compare the exception actually
  raised against the one the specification names.
* Mutation of `self` is modelled by returning the updated record.
-/

inductive PyErr
  | IndexError
  | AttributeError
  | NameError
  | TypeError
  | EmptyQueueError
deriving DecidableEq, Repr

/-! ## location.py -/

structure Location where
  row : Int
  column : Int
deriving DecidableEq, Repr

/-- `manhattan_distance` (location.py):
`abs(destination.row - origin.row) + abs(destination.column - origin.column)`. -/
def manhattan_distance (origin destination : Location) : Int :=
  |destination.row - origin.row| + |destination.column - origin.column|

/-! ## rider.py -/

def WAITING : String := "waiting"

def CANCELLED : String := "cancelled"

def SATISFIED : String := "satisfied"

/-- `Rider` (rider.py): identifier, origin, destination, patience; `_status`
starts at `WAITING`.  The class has no `location` attribute (relevant to
`Dispatcher.request_driver`, which accesses `rider.location`). -/
structure Rider where
  id : String
  origin : Location
  destination : Location
  patience : Int
  _status : String
deriving DecidableEq, Repr

/-! ## driver.py -/

/-- `Driver` (driver.py): `__init__` sets `is_idle = True`,
`destination = None`, `_passenger = None`. -/
structure Driver where
  id : String
  location : Location
  speed : Int
  is_idle : Bool
  destination : Option Location
  _passenger : Option String
deriving DecidableEq, Repr

/-- Python's built-in `round` applied to the exact rational `num / den`
(`num ≥ 0`, `den > 0`): nearest integer, ties to even.  `driver.py` computes
`round(manhattan_distance(...) / self.speed)` with float true division; for
the exact-quotient and half-integer cases the float result coincides with
this exact round-half-to-even value. -/
def pyRound (num den : Int) : Int :=
  if 2 * (num % den) < den then num / den
  else if den < 2 * (num % den) then num / den + 1
  else if num / den % 2 = 0 then num / den else num / den + 1

/-- `Driver.get_travel_time` (driver.py):
`round(manhattan_distance(self.location, destination) / self.speed)`. -/
def Driver.get_travel_time (self : Driver) (destination : Location) : Int :=
  pyRound (manhattan_distance self.location destination) self.speed

/-- `Driver.start_drive` (driver.py): sets `self.destination = location`,
returns `self.get_travel_time(self.destination)`.  (It neither checks nor
changes `is_idle`.) -/
def Driver.start_drive (self : Driver) (location : Location) : Driver × Int :=
  let s := { self with destination := some location }
  (s, s.get_travel_time location)

/-- `Driver.end_drive` (driver.py): the body is the single statement
`self.location = self.destination`.  It does not clear `destination` and
does not touch `is_idle`.  When `destination` is `None` (precondition
violated) the assignment would store `None` into `location`, corrupting the
`Location`-typed field; that case is modelled as `none`. -/
def Driver.end_drive (self : Driver) : Option Driver :=
  match self.destination with
  | some d => some { self with location := d }
  | none => none

/-- `Driver.start_ride` (driver.py): records the passenger id and the
rider's destination, clears `is_idle`, returns the travel time to the
rider's destination. -/
def Driver.start_ride (self : Driver) (rider : Rider) : Driver × Int :=
  let s := { self with
    _passenger := some rider.id
    destination := some rider.destination
    is_idle := false }
  (s, s.get_travel_time rider.destination)

/-- `Driver.__eq__` (driver.py): compares `id`, `location`, `speed` and
`is_idle` (it ignores `destination` and `_passenger`). -/
def Driver.pyEq (self other : Driver) : Bool :=
  self.id == other.id && decide (self.location = other.location) &&
    self.speed == other.speed && self.is_idle == other.is_idle

/-- `Driver.__lt__` (driver.py): `self.speed < other.speed`. -/
def Driver.pyLt (self other : Driver) : Bool :=
  decide (self.speed < other.speed)

/-! ## container.py -/

/-- Stable insertion used to model Python's `list.sort()`: the new element
`a` is placed before the first element `b` with `lt a b` (i.e. after every
element that is not greater than it).  `list.sort` is a stable sort driven
solely by `__lt__`; a stable sort's output is determined uniquely by the
order, so this insertion-sort model is extensionally exact. -/
def insertStable (lt : α → α → Bool) (a : α) : List α → List α
  | [] => [a]
  | b :: l => if lt a b then a :: b :: l else b :: insertStable lt a l

/-- Model of Python's stable `list.sort()` (driven by the items' `__lt__`,
passed in as `lt`). -/
def pySort (lt : α → α → Bool) (l : List α) : List α :=
  l.foldl (fun acc x => insertStable lt x acc) []

/-- `PriorityQueue` (container.py): its only attribute is the list
`_items`; the representation invariant documented in the source is that
`_items` is sorted with the highest-priority (least, by `__lt__`) item
first. -/
structure PriorityQueue (α : Type) where
  _items : List α
deriving DecidableEq, Repr

/-- `PriorityQueue.add` (container.py): `self._items.append(item)` followed
by `self._items.sort()`. -/
def PriorityQueue.add (lt : α → α → Bool) (pq : PriorityQueue α) (item : α) :
    PriorityQueue α :=
  ⟨pySort lt (pq._items ++ [item])⟩

/-- `PriorityQueue.remove` (container.py): `return self._items.pop(0)`.
On an empty list, `list.pop` raises the built-in `IndexError` (no
`EmptyQueueError` class exists anywhere in the repository). -/
def PriorityQueue.remove (pq : PriorityQueue α) :
    Except PyErr (α × PriorityQueue α) :=
  match pq._items with
  | [] => .error .IndexError
  | x :: rest => .ok (x, ⟨rest⟩)

/-- `PriorityQueue.is_empty` (container.py): `len(self._items) == 0`
(a pure read; it performs no mutation). -/
def PriorityQueue.is_empty (pq : PriorityQueue α) : Bool :=
  pq._items.length == 0

/-- `Queue` (container.py): FIFO list; `add` appends at the back. -/
structure Queue (α : Type) where
  _items : List α
deriving DecidableEq, Repr

/-- `Queue.add` (container.py): `self._items.append(obj)`. -/
def Queue.add (q : Queue α) (obj : α) : Queue α :=
  ⟨q._items ++ [obj]⟩

/-- `Queue.is_empty` (container.py): `self._items == []` (an emptiness
test on the list). -/
def Queue.is_empty (q : Queue α) : Bool :=
  q._items.isEmpty

/-! Repeatedly calling `remove` until the queue is empty (`fuel` bounds the
recursion; `pqDrain` supplies the queue's size, which is always enough). -/

def pqDrainFuel : Nat → PriorityQueue α → List α
  | 0, _ => []
  | n + 1, pq =>
    match pq.remove with
    | .error _ => []
    | .ok (x, rest) => x :: pqDrainFuel n rest

/-- The sequence of items yielded by successive `remove` calls. -/
def pqDrain (pq : PriorityQueue α) : List α :=
  pqDrainFuel pq._items.length pq

/-- `Event.__lt__` as used by the priority queue, on items abstracted to
(timestamp key, insertion tag): only the timestamp is compared. -/
def eventLT (a b : Int × Nat) : Bool :=
  decide (a.1 < b.1)

/-- Tag each pushed key with its insertion index, starting at `n`. -/
def tagFrom (n : Nat) : List Int → List (Int × Nat)
  | [] => []
  | k :: ks => (k, n) :: tagFrom (n + 1) ks

/-- The sequence of (key, insertion-index) items for a push sequence. -/
def taggedItems (keys : List Int) : List (Int × Nat) :=
  tagFrom 0 keys

/-- Push a whole sequence of timestamp keys into an initially empty
`PriorityQueue`, each tagged with its insertion index. -/
def pqPushAll (keys : List Int) : PriorityQueue (Int × Nat) :=
  (taggedItems keys).foldl (fun pq item => pq.add eventLT item) ⟨[]⟩

/-! ## dispatcher.py

Module-level caveats, reflected in the error results below:
* line 3 reads `from container import Queue(), PriorityQueue()`, which is a
  `SyntaxError` — in CPython the module (and `event.py`, which imports it)
  cannot be imported at all.  The embedding models the method bodies as
  written, so that their logic can still be examined.
* `PriorityQueue` defines neither `__iter__`, `__getitem__` nor
  `__contains__`, so `for driver in self._fleet` and
  `driver not in self._fleet` raise `TypeError` in CPython.  The embedding
  reads them generously as iteration/membership over `_fleet._items`
  (noting the generous reading here); the body logic below misbehaves even
  under this generous reading.
* `cancel_ride` and `end_wait` reference the names `CANCELLED` and
  `SATISFIED`, which are neither defined in nor imported into
  `dispatcher.py`: evaluating the right-hand side raises `NameError`
  before any assignment happens (and the assignment targets `rider.status`,
  a fresh attribute, not the canonical `rider._status`).
* `remove_from_waitlist` evaluates `len(self._waitlist)`, and `Queue`
  defines no `__len__`: `TypeError` on every call.
-/

structure Dispatcher where
  _waitlist : Queue Rider
  _fleet : PriorityQueue Driver
deriving DecidableEq, Repr

/-- `Dispatcher.__init__`: empty waitlist, empty fleet. -/
def Dispatcher.init : Dispatcher :=
  ⟨⟨[]⟩, ⟨[]⟩⟩

/-- The first loop of `Dispatcher.request_driver` (dispatcher.py lines
53-60): walks the fleet; an idle driver overwrites `fastest_driver`; the
first non-idle driver triggers `self._waitlist.add(rider); return None`
(modelled as the `none` result).  `some fastest` means the loop ran to
completion. -/
def rdScan : List Driver → Option Driver → Option (Option Driver)
  | [], fastest => some fastest
  | d :: rest, fastest =>
    if d.is_idle then rdScan rest (some d) else none

/-- `Dispatcher.request_driver` (dispatcher.py lines 41-71).  If the first
loop early-returns (some driver in fleet order is non-idle), the rider is
appended to the waitlist and `None` is returned.  If the first loop
completes: with an empty fleet, `fastest_driver` is still `None` and line
70 (`fastest_driver.is_idle = False`) raises `AttributeError`; with a
non-empty all-idle fleet, the second loop's first iteration evaluates
`rider.location` (line 65) and `Rider` has no `location` attribute, again
`AttributeError`.  So the function never successfully returns a driver. -/
def Dispatcher.request_driver (self : Dispatcher) (rider : Rider) :
    Except PyErr (Dispatcher × Option Driver) :=
  match rdScan self._fleet._items none with
  | none => .ok ({ self with _waitlist := self._waitlist.add rider }, none)
  | some _ => .error .AttributeError

/-- Truthiness of the bound-method object `self._waitlist.is_empty` in
`request_rider` (dispatcher.py line 86): the parentheses are missing, so
the method is never called; a bound method object is always truthy. -/
def boundMethodTruthy : Bool := true

/-- `Dispatcher.request_rider` (dispatcher.py lines 73-89): adds the
driver to the fleet when no fleet member compares `__eq__`-equal to it;
then tests `if not self._waitlist.is_empty:` — since `is_empty` is not
called, the condition is always false and the function always returns
`None`, never touching the waitlist.  (The then-branch is dead; had it
been reachable, `self._waitlist[0]` would raise `TypeError`, `Queue`
having no `__getitem__`, and the rider would not be removed.) -/
def Dispatcher.request_rider (self : Dispatcher) (driver : Driver) :
    Except PyErr (Dispatcher × Option Rider) :=
  let fleet' :=
    if self._fleet._items.any (fun d => d.pyEq driver) then self._fleet
    else self._fleet.add Driver.pyLt driver
  let self' := { self with _fleet := fleet' }
  if !boundMethodTruthy then .error .TypeError
  else .ok (self', none)

/-- `Dispatcher.remove_from_waitlist` (dispatcher.py lines 91-102): the
loop header evaluates `len(self._waitlist)` and `Queue` defines no
`__len__`, so every call raises `TypeError` (reaching the body would also
hit `self._waitlist[i]`, no `__getitem__`, and the undefined global
`dispatcher`). -/
def Dispatcher.remove_from_waitlist (self : Dispatcher) (rider : Rider) :
    Except PyErr Dispatcher :=
  .error .TypeError

/-- `Dispatcher.cancel_ride` (dispatcher.py lines 104-111): the body is
`rider.status = CANCELLED`, and the name `CANCELLED` is not defined in
`dispatcher.py` (no import from `rider.py`): every call raises
`NameError` before any state changes. -/
def Dispatcher.cancel_ride (self : Dispatcher) (rider : Rider) :
    Except PyErr (Dispatcher × Rider) :=
  .error .NameError

/-- `Dispatcher.end_wait` (dispatcher.py lines 113-120): the body is
`rider.status = SATISFIED`, and `SATISFIED` is likewise undefined in
`dispatcher.py`: every call raises `NameError`. -/
def Dispatcher.end_wait (self : Dispatcher) (rider : Rider) :
    Except PyErr (Dispatcher × Rider) :=
  .error .NameError

/-! ## monitor.py (interface only: the constants and the notify record) -/

def RIDER : String := "rider"

def DRIVER : String := "driver"

def REQUEST : String := "request"

def CANCEL : String := "cancel"

def PICKUP : String := "pickup"

def DROPOFF : String := "dropoff"

/-- One `monitor.notify(timestamp, category, description, identifier,
location)` call; the monitor is modelled as the list of such records. -/
structure Notification where
  timestamp : Int
  category : String
  description : String
  identifier : String
  location : Location
deriving DecidableEq, Repr

/-! ## event.py -/

/-- The event hierarchy (event.py): an abstract `Event` carrying a
timestamp, with five concrete variants carrying their payloads. -/
inductive Event
  | riderRequest (timestamp : Int) (rider : Rider)
  | driverRequest (timestamp : Int) (driver : Driver)
  | cancellation (timestamp : Int) (rider : Rider)
  | pickup (timestamp : Int) (rider : Rider) (driver : Driver)
  | dropoff (timestamp : Int) (rider : Rider) (driver : Driver)
deriving DecidableEq, Repr

/-- `Event.timestamp`: the attribute set by `Event.__init__` for every
variant. -/
def Event.timestamp : Event → Int
  | .riderRequest t _ => t
  | .driverRequest t _ => t
  | .cancellation t _ => t
  | .pickup t _ _ => t
  | .dropoff t _ _ => t

/-- `Event.__eq__` (event.py): `self.timestamp == other.timestamp`,
regardless of variant or payload. -/
def Event.pyEq (self other : Event) : Bool :=
  self.timestamp == other.timestamp

/-- `Event.__ne__` (event.py): `not self == other`. -/
def Event.pyNe (self other : Event) : Bool :=
  !(self.pyEq other)

/-- `Event.__lt__` (event.py): `self.timestamp < other.timestamp`. -/
def Event.pyLt (self other : Event) : Bool :=
  decide (self.timestamp < other.timestamp)

/-- `Event.__le__` (event.py): `self.timestamp <= other.timestamp`. -/
def Event.pyLe (self other : Event) : Bool :=
  decide (self.timestamp ≤ other.timestamp)

/-- `Event.__gt__` (event.py): `not self <= other`. -/
def Event.pyGt (self other : Event) : Bool :=
  !(self.pyLe other)

/-- `Event.__ge__` (event.py): `not self < other`. -/
def Event.pyGe (self other : Event) : Bool :=
  !(self.pyLt other)

/-- The outcome of an event's `do(dispatcher, monitor)` call: the updated
dispatcher, the monitor's appended notifications, and the returned list of
follow-up events — or the exception that propagated out.  (`do` is a Lean
keyword, hence `do_event`.) -/
abbrev DoResult := Except PyErr (Dispatcher × List Notification × List Event)

/-- `RiderRequest.do` (event.py lines 211-233): notify the monitor, ask the
dispatcher for a driver; if one is returned, `start_drive` to the rider's
origin and append a `Pickup` at `timestamp + travel_time`; always append a
`Cancellation` at `timestamp + rider.patience`.  An exception from
`request_driver` propagates (the notification already happened, but no
event list is returned). -/
def RiderRequest.do_event (timestamp : Int) (rider : Rider)
    (dispatcher : Dispatcher) (monitor : List Notification) : DoResult :=
  let monitor' := monitor ++
    [⟨timestamp, RIDER, REQUEST, rider.id, rider.origin⟩]
  match dispatcher.request_driver rider with
  | .error e => .error e
  | .ok (dispatcher', odriver) =>
    match odriver with
    | some driver =>
      let (driver', travel_time) := driver.start_drive rider.origin
      .ok (dispatcher', monitor',
        [Event.pickup (timestamp + travel_time) rider driver',
         Event.cancellation (timestamp + rider.patience) rider])
    | none =>
      .ok (dispatcher', monitor',
        [Event.cancellation (timestamp + rider.patience) rider])

/-- `Cancellation.do` (event.py lines 314-330): notify the monitor, then
`dispatcher.cancel_ride(self.rider)` — which always raises `NameError`
(undefined `CANCELLED` in dispatcher.py) — then
`dispatcher.remove_from_waitlist(self.rider)`.  No status check of any
kind is performed before calling `cancel_ride`. -/
def Cancellation.do_event (timestamp : Int) (rider : Rider)
    (dispatcher : Dispatcher) (monitor : List Notification) : DoResult :=
  let monitor' := monitor ++
    [⟨timestamp, RIDER, CANCEL, rider.id, rider.origin⟩]
  match dispatcher.cancel_ride rider with
  | .error e => .error e
  | .ok (dispatcher', rider') =>
    match dispatcher'.remove_from_waitlist rider' with
    | .error e => .error e
    | .ok dispatcher'' => .ok (dispatcher'', monitor', [])

/-! ## Helper lemmas about the stable-sort model -/

/-- The priority-with-FIFO-tie-break order on (timestamp, insertion-index)
items: strictly earlier timestamp, or equal timestamp and earlier
insertion. -/
def pqOrd (a b : Int × Nat) : Prop :=
  a.1 < b.1 ∨ (a.1 = b.1 ∧ a.2 < b.2)

lemma insertStable_perm (lt : α → α → Bool) (a : α) (l : List α) :
    List.Perm (insertStable lt a l) (a :: l) := by
  induction l with
  | nil => exact List.Perm.refl _
  | cons b l ih =>
    unfold insertStable
    by_cases h : lt a b = true
    · simp only [h, if_true]
      exact List.Perm.refl _
    · simp only [Bool.not_eq_true] at h
      simp only [h, Bool.false_eq_true, if_false]
      exact (ih.cons b).trans (List.Perm.swap a b l)

lemma foldl_insertStable_perm (lt : α → α → Bool) (l : List α) :
    ∀ acc : List α,
      List.Perm (l.foldl (fun acc x => insertStable lt x acc) acc) (acc ++ l) := by
  induction l with
  | nil => intro acc; simp
  | cons x l ih =>
    intro acc
    have h1 : (x :: l).foldl (fun acc x => insertStable lt x acc) acc
        = l.foldl (fun acc x => insertStable lt x acc) (insertStable lt x acc) := rfl
    rw [h1]
    have h2 := ih (insertStable lt x acc)
    have h3 : List.Perm (insertStable lt x acc ++ l) ((x :: acc) ++ l) :=
      (insertStable_perm lt x acc).append_right l
    have h4 : List.Perm (acc ++ x :: l) (x :: (acc ++ l)) := List.perm_middle
    exact (h2.trans h3).trans h4.symm

lemma pySort_perm (lt : α → α → Bool) (l : List α) :
    List.Perm (pySort lt l) l := by
  simpa using foldl_insertStable_perm lt l []

lemma insertStable_of_le (lt : α → α → Bool) (a : α) (acc : List α)
    (h : ∀ b ∈ acc, lt a b = false) :
    insertStable lt a acc = acc ++ [a] := by
  induction acc with
  | nil => rfl
  | cons b acc ih =>
    unfold insertStable
    have hb : lt a b = false := h b (by simp)
    simp only [hb, Bool.false_eq_true, if_false, List.cons_append,
      List.cons.injEq, true_and]
    exact ih (fun c hc => h c (by simp [hc]))

lemma foldl_insertStable_of_sorted (lt : α → α → Bool) (l : List α) :
    ∀ acc : List α, (∀ b ∈ acc, ∀ x ∈ l, lt x b = false) →
      l.Pairwise (fun a b => lt b a = false) →
      l.foldl (fun acc x => insertStable lt x acc) acc = acc ++ l := by
  induction l with
  | nil => intro acc _ _; simp
  | cons x l ih =>
    intro acc hacc hsort
    have hins : insertStable lt x acc = acc ++ [x] :=
      insertStable_of_le lt x acc (fun b hb => hacc b hb x (by simp))
    have hsort' := List.pairwise_cons.mp hsort
    have h1 : (x :: l).foldl (fun acc x => insertStable lt x acc) acc
        = l.foldl (fun acc x => insertStable lt x acc) (insertStable lt x acc) := rfl
    rw [h1, hins]
    have h2 : l.foldl (fun acc x => insertStable lt x acc) (acc ++ [x])
        = (acc ++ [x]) ++ l := by
      refine ih (acc ++ [x]) ?_ hsort'.2
      intro b hb y hy
      rcases List.mem_append.mp hb with hb | hb
      · exact hacc b hb y (by simp [hy])
      · simp only [List.mem_singleton] at hb
        subst hb
        exact hsort'.1 y hy
    rw [h2]
    simp

lemma pySort_of_sorted (lt : α → α → Bool) (l : List α)
    (hsort : l.Pairwise (fun a b => lt b a = false)) :
    pySort lt l = l := by
  simpa using foldl_insertStable_of_sorted lt l [] (by simp) hsort

lemma mem_insertStable {lt : α → α → Bool} {a x : α} {l : List α}
    (h : x ∈ insertStable lt a l) : x = a ∨ x ∈ l :=
  List.mem_cons.mp ((insertStable_perm lt a l).mem_iff.mp h)

lemma insertStable_pairwise_pqOrd (a : Int × Nat) (l : List (Int × Nat))
    (hl : l.Pairwise pqOrd) (htags : ∀ b ∈ l, b.2 < a.2) :
    (insertStable eventLT a l).Pairwise pqOrd := by
  induction l with
  | nil => simp [insertStable]
  | cons b l ih =>
    rw [List.pairwise_cons] at hl
    unfold insertStable
    by_cases h : eventLT a b = true
    · simp only [h, if_true]
      refine List.pairwise_cons.mpr ⟨?_, List.pairwise_cons.mpr hl⟩
      intro c hc
      have hab : a.1 < b.1 := by simpa [eventLT] using h
      rcases List.mem_cons.mp hc with rfl | hc
      · exact Or.inl hab
      · have hbc : b.1 ≤ c.1 := by
          rcases hl.1 c hc with h1 | ⟨h1, _⟩
          · exact le_of_lt h1
          · exact le_of_eq h1
        exact Or.inl (lt_of_lt_of_le hab hbc)
    · simp only [Bool.not_eq_true] at h
      simp only [h, Bool.false_eq_true, if_false]
      refine List.pairwise_cons.mpr ⟨?_, ?_⟩
      · intro c hc
        rcases mem_insertStable hc with hca | hc
        · subst hca
          have hba : ¬ c.1 < b.1 := by simpa [eventLT] using h
          have htag : b.2 < c.2 := htags b (by simp)
          rcases lt_or_eq_of_le (le_of_not_lt hba) with h1 | h1
          · exact Or.inl h1
          · exact Or.inr ⟨h1, htag⟩
        · exact hl.1 c hc
      · exact ih hl.2 (fun c hc => htags c (by simp [hc]))

lemma pqOrd_to_not_lt {a b : Int × Nat} (h : pqOrd a b) :
    eventLT b a = false := by
  rcases h with h | ⟨h, _⟩
  · simp only [eventLT, decide_eq_false_iff_not]
    omega
  · simp only [eventLT, decide_eq_false_iff_not]
    omega

lemma pq_add_items (pq : PriorityQueue (Int × Nat)) (a : Int × Nat)
    (hinv : pq._items.Pairwise pqOrd) :
    (pq.add eventLT a)._items = insertStable eventLT a pq._items := by
  show pySort eventLT (pq._items ++ [a]) = insertStable eventLT a pq._items
  unfold pySort
  rw [List.foldl_append]
  show insertStable eventLT a
      (pq._items.foldl (fun acc x => insertStable eventLT x acc) []) = _
  have : pq._items.foldl (fun acc x => insertStable eventLT x acc) []
      = pySort eventLT pq._items := rfl
  rw [this, pySort_of_sorted eventLT pq._items (hinv.imp pqOrd_to_not_lt)]

lemma pqPushAll_aux (ks : List Int) :
    ∀ (n : Nat) (pq : PriorityQueue (Int × Nat)),
      pq._items.Pairwise pqOrd → (∀ b ∈ pq._items, b.2 < n) →
      ((tagFrom n ks).foldl (fun pq item => pq.add eventLT item) pq)._items.Pairwise pqOrd
      ∧ List.Perm
          ((tagFrom n ks).foldl (fun pq item => pq.add eventLT item) pq)._items
          (pq._items ++ tagFrom n ks) := by
  induction ks with
  | nil => intro n pq hinv _; simpa [tagFrom] using hinv
  | cons k ks ih =>
    intro n pq hinv htags
    have hstep : (pq.add eventLT (k, n))._items
        = insertStable eventLT (k, n) pq._items := pq_add_items pq (k, n) hinv
    have hinv' : (pq.add eventLT (k, n))._items.Pairwise pqOrd := by
      rw [hstep]
      exact insertStable_pairwise_pqOrd (k, n) pq._items hinv htags
    have htags' : ∀ b ∈ (pq.add eventLT (k, n))._items, b.2 < n + 1 := by
      intro b hb
      rw [hstep] at hb
      rcases mem_insertStable hb with rfl | hb
      · exact Nat.lt_succ_self n
      · exact Nat.lt_succ_of_lt (htags b hb)
    have hperm : List.Perm (pq.add eventLT (k, n))._items
        (pq._items ++ [(k, n)]) := by
      rw [hstep]
      have hmid : List.Perm (pq._items ++ [(k, n)]) ((k, n) :: pq._items) := by
        have h0 : List.Perm (pq._items ++ (k, n) :: [])
            ((k, n) :: (pq._items ++ [])) := List.perm_middle
        simpa using h0
      exact (insertStable_perm eventLT (k, n) pq._items).trans hmid.symm
    obtain ⟨h1, h2⟩ := ih (n + 1) (pq.add eventLT (k, n)) hinv' htags'
    have hfold : (tagFrom n (k :: ks)).foldl (fun pq item => pq.add eventLT item) pq
        = (tagFrom (n + 1) ks).foldl (fun pq item => pq.add eventLT item)
            (pq.add eventLT (k, n)) := rfl
    refine ⟨by rw [hfold]; exact h1, ?_⟩
    rw [hfold]
    have h3 : List.Perm ((pq.add eventLT (k, n))._items ++ tagFrom (n + 1) ks)
        ((pq._items ++ [(k, n)]) ++ tagFrom (n + 1) ks) :=
      hperm.append_right _
    have h4 : (pq._items ++ [(k, n)]) ++ tagFrom (n + 1) ks
        = pq._items ++ tagFrom n (k :: ks) := by
      simp [tagFrom]
    exact (h2.trans h3).trans (by rw [h4])

lemma pqDrain_eq (pq : PriorityQueue α) : pqDrain pq = pq._items := by
  show pqDrainFuel pq._items.length pq = pq._items
  obtain ⟨l⟩ := pq
  induction l with
  | nil => rfl
  | cons x rest ih =>
    show pqDrainFuel (rest.length + 1) ⟨x :: rest⟩ = x :: rest
    unfold pqDrainFuel
    simp only [PriorityQueue.remove]
    exact congrArg (x :: ·) ih

/-! ## Helper lemmas about rounding -/

lemma manhattan_nonneg (a b : Location) : 0 ≤ manhattan_distance a b :=
  add_nonneg (abs_nonneg _) (abs_nonneg _)

/-- `pyRound m s` (for `0 ≤ m`, `0 < s`) is a nearest integer to `m / s`
(within half of `s` either way) and breaks exact halves towards the even
integer. -/
lemma pyRound_spec (m s : Int) (hm : 0 ≤ m) (hs : 0 < s) :
    0 ≤ pyRound m s
    ∧ -s ≤ 2 * (s * pyRound m s - m)
    ∧ 2 * (s * pyRound m s - m) ≤ s
    ∧ ((2 * (s * pyRound m s - m) = s ∨ 2 * (s * pyRound m s - m) = -s)
        → pyRound m s % 2 = 0) := by
  have hsne : s ≠ 0 := ne_of_gt hs
  have hr0 : 0 ≤ m % s := Int.emod_nonneg m hsne
  have hrs : m % s < s := Int.emod_lt_of_pos m hs
  have heq : s * (m / s) + m % s = m := Int.ediv_add_emod m s
  have hq0 : 0 ≤ m / s := Int.ediv_nonneg hm (le_of_lt hs)
  unfold pyRound
  split_ifs with h1 h2 h3
  · exact ⟨hq0, by linarith, by linarith,
      fun ht => by rcases ht with ht | ht <;> linarith⟩
  · exact ⟨by linarith, by linarith, by linarith,
      fun ht => by rcases ht with ht | ht <;> linarith⟩
  · exact ⟨hq0, by linarith, by linarith, fun _ => h3⟩
  · refine ⟨by linarith, by linarith, by linarith, fun _ => ?_⟩
    omega

/-- `pyRound` is monotone in the numerator for a fixed positive
denominator. -/
lemma pyRound_mono (m1 m2 s : Int) (hm1 : 0 ≤ m1) (h12 : m1 ≤ m2)
    (hs : 0 < s) : pyRound m1 s ≤ pyRound m2 s := by
  have hsne : s ≠ 0 := ne_of_gt hs
  obtain ⟨h10, h1l, h1u, h1t⟩ := pyRound_spec m1 s hm1 hs
  obtain ⟨h20, h2l, h2u, h2t⟩ := pyRound_spec m2 s (le_trans hm1 h12) hs
  by_contra hlt
  push_neg at hlt
  have hba : pyRound m2 s + 1 ≤ pyRound m1 s := hlt
  have hmul : s * (pyRound m2 s + 1) ≤ s * pyRound m1 s :=
    mul_le_mul_of_nonneg_left hba (le_of_lt hs)
  have e1 : 2 * (s * pyRound m1 s - m1) = s := by linarith
  have e2 : 2 * (s * pyRound m2 s - m2) = -s := by linarith
  have hm12 : m1 = m2 := by linarith
  have heven1 : pyRound m1 s % 2 = 0 := h1t (Or.inl e1)
  have heven2 : pyRound m2 s % 2 = 0 := h2t (Or.inr e2)
  have hsucc : pyRound m1 s = pyRound m2 s + 1 := by
    have h' : s * pyRound m1 s ≤ s * (pyRound m2 s + 1) := by linarith
    have := le_antisymm hmul h'
    exact (mul_left_cancel₀ hsne this).symm
  omega

/-! ## Concrete exemplar entities used in the claim evaluations -/

def riderA : Rider := ⟨"Ada", ⟨0, 0⟩, ⟨1, 1⟩, 5, WAITING⟩

def riderSatisfied : Rider := ⟨"Sam", ⟨0, 0⟩, ⟨1, 1⟩, 5, SATISFIED⟩

def driverIdle : Driver := ⟨"Ida", ⟨0, 0⟩, 1, true, none, none⟩

def driverBusy : Driver := ⟨"Bob", ⟨3, 4⟩, 2, false, none, none⟩

/-! ## Claim theorems -/

/-- C1 (confirmed): for every sequence of `add` (push) calls on a
`PriorityQueue` (keys pushed in order, each tagged with its insertion
index), successive `remove` (pop) calls yield exactly the pushed items
(a permutation), in non-decreasing key (priority) order, and among items
of equal key in strictly increasing insertion order — the FIFO
tie-break. -/
theorem priorityQueue_pop_sorted_fifo (keys : List Int) :
    List.Perm (pqDrain (pqPushAll keys)) (taggedItems keys)
    ∧ (pqDrain (pqPushAll keys)).Pairwise pqOrd := by
  have h := pqPushAll_aux keys 0 ⟨[]⟩ (by simp) (by simp)
  have hdrain : pqDrain (pqPushAll keys) = (pqPushAll keys)._items :=
    pqDrain_eq _
  constructor
  · rw [hdrain]
    have h2 := h.2
    simpa [pqPushAll, taggedItems] using h2
  · rw [hdrain]
    have h1 := h.1
    simpa [pqPushAll, taggedItems] using h1

/-- C2 (code_bug): `request_driver` never returns a driver.  With a fleet
containing an idle driver followed by a non-idle one, it waitlists the
rider and returns `None` even though an idle driver exists; with an empty
fleet it raises `AttributeError` (`fastest_driver` is still `None` at line
70); with a non-empty all-idle fleet it raises `AttributeError` as well
(`rider.location` at line 65 — `Rider` has no `location` attribute). -/
theorem request_driver_code_bug :
    Dispatcher.request_driver ⟨⟨[]⟩, ⟨[driverIdle, driverBusy]⟩⟩ riderA
      = Except.ok (⟨⟨[riderA]⟩, ⟨[driverIdle, driverBusy]⟩⟩, none)
    ∧ Dispatcher.request_driver ⟨⟨[]⟩, ⟨[]⟩⟩ riderA
      = Except.error PyErr.AttributeError
    ∧ Dispatcher.request_driver ⟨⟨[]⟩, ⟨[driverIdle]⟩⟩ riderA
      = Except.error PyErr.AttributeError :=
  ⟨rfl, rfl, rfl⟩

/-- C3 (code_bug): with a non-empty wait-list, `request_rider` returns
`None` and leaves the wait-list untouched (the emptiness test
`if not self._waitlist.is_empty:` never calls `is_empty`, and the
truthy bound-method object makes the condition always false); the driver
is still registered into the fleet. -/
theorem request_rider_code_bug :
    Dispatcher.request_rider ⟨⟨[riderA]⟩, ⟨[]⟩⟩ driverIdle
      = Except.ok (⟨⟨[riderA]⟩, ⟨[driverIdle]⟩⟩, none) := rfl

/-- C4 (code_bug): the dispatcher operations do raise for ordinary
inputs: `cancel_ride` raises `NameError` on every call (`CANCELLED` is
undefined in dispatcher.py), and `request_driver` raises
`AttributeError` on an empty fleet instead of wait-listing the rider and
returning `None`. -/
theorem dispatcher_never_raise_code_bug :
    Dispatcher.cancel_ride ⟨⟨[]⟩, ⟨[]⟩⟩ riderA = Except.error PyErr.NameError
    ∧ Dispatcher.request_driver ⟨⟨[]⟩, ⟨[]⟩⟩ riderSatisfied
      = Except.error PyErr.AttributeError :=
  ⟨rfl, rfl⟩

/-- C5 (code_bug): applying a `Cancellation` event to a rider whose
status is `SATISFIED` is not a no-op: `Cancellation.do` performs no
status check and unconditionally calls `dispatcher.cancel_ride`, which
raises `NameError` (after the monitor was already notified of a cancel);
had the name resolved, the status would have been overwritten
regardless of its current value. -/
theorem cancellation_not_noop_code_bug :
    Cancellation.do_event 9 riderSatisfied ⟨⟨[]⟩, ⟨[]⟩⟩ []
      = Except.error PyErr.NameError := rfl

/-- C6 (code_bug): `RiderRequest.do` does not always return a
`Cancellation` event: with an empty fleet the `AttributeError` raised
inside `request_driver` propagates and no events are returned at all, so
the patience timeout is never scheduled.  (On the one path where
`request_driver` returns — some fleet driver non-idle — the returned
list is exactly the `Cancellation` at `timestamp + patience`.) -/
theorem riderRequest_do_code_bug :
    RiderRequest.do_event 0 riderA ⟨⟨[]⟩, ⟨[]⟩⟩ []
      = Except.error PyErr.AttributeError
    ∧ RiderRequest.do_event 0 riderA ⟨⟨[]⟩, ⟨[driverBusy]⟩⟩ []
      = Except.ok (⟨⟨[riderA]⟩, ⟨[driverBusy]⟩⟩,
          [⟨0, RIDER, REQUEST, "Ada", ⟨0, 0⟩⟩],
          [Event.cancellation 5 riderA]) :=
  ⟨rfl, rfl⟩

/-- C7 (corrected, counterexample): `remove` on an empty `PriorityQueue`
raises the built-in `IndexError` (from `self._items.pop(0)`), not the
`EmptyQueueError` named by the claim — no `EmptyQueueError` class exists
in the repository. -/
theorem pq_remove_empty_raises_IndexError :
    PriorityQueue.remove (⟨[]⟩ : PriorityQueue (Int × Nat))
      = Except.error PyErr.IndexError
    ∧ PyErr.IndexError ≠ PyErr.EmptyQueueError :=
  ⟨rfl, by decide⟩

/-- C7 (amended): `remove` on an empty `PriorityQueue` fails, but with
`IndexError`; on a non-empty queue satisfying the documented
representation invariant (`_items` sorted, highest priority first) it
removes and returns the first item, which has minimal key
(earliest timestamp), leaving exactly the tail; `is_empty` is a pure
read of the same state. -/
theorem pq_remove_nonempty_min (pq : PriorityQueue (Int × Nat))
    (x : Int × Nat) (rest : List (Int × Nat))
    (hitems : pq._items = x :: rest)
    (hinv : pq._items.Pairwise (fun a b => a.1 ≤ b.1)) :
    pq.remove = Except.ok (x, ⟨rest⟩)
    ∧ (∀ y ∈ rest, x.1 ≤ y.1)
    ∧ pq.is_empty = false := by
  obtain ⟨l⟩ := pq
  simp only at hitems
  subst hitems
  rw [List.pairwise_cons] at hinv
  exact ⟨rfl, hinv.1, rfl⟩

/-- Witness for the amended C7 theorem at a concrete two-element
queue. -/
theorem pq_remove_nonempty_min_witness :
    ((⟨[(3, 0), (5, 1)]⟩ : PriorityQueue (Int × Nat))._items
        = (3, 0) :: [(5, 1)])
    ∧ ((⟨[(3, 0), (5, 1)]⟩ : PriorityQueue (Int × Nat))._items.Pairwise
        (fun a b => a.1 ≤ b.1))
    ∧ ((⟨[(3, 0), (5, 1)]⟩ : PriorityQueue (Int × Nat)).remove
          = Except.ok ((3, 0), ⟨[(5, 1)]⟩)
        ∧ (∀ y ∈ [((5 : Int), (1 : Nat))], (3 : Int) ≤ y.1)
        ∧ (⟨[(3, 0), (5, 1)]⟩ : PriorityQueue (Int × Nat)).is_empty = false) :=
  ⟨rfl, by decide, pq_remove_nonempty_min _ _ _ rfl (by decide)⟩

/-- C8 (corrected, counterexample): after `end_drive` on a driver whose
destination is set, the destination is NOT cleared — it still holds the
old target, contradicting the claim that `end_drive` sets it to no
destination. -/
theorem end_drive_keeps_destination :
    Driver.end_drive ⟨"Ida", ⟨0, 0⟩, 1, false, some ⟨2, 3⟩, none⟩
      = some ⟨"Ida", ⟨2, 3⟩, 1, false, some ⟨2, 3⟩, none⟩
    ∧ (⟨"Ida", ⟨2, 3⟩, 1, false, some ⟨2, 3⟩, none⟩ : Driver).destination
        ≠ none :=
  ⟨rfl, by decide⟩

/-- C8 (amended): for a driver whose destination is set, `end_drive`
moves the location to that destination and changes nothing else: the
destination stays set (it is not cleared) and `is_idle` is left
unchanged. -/
theorem end_drive_moves_location_only (d : Driver) (dest : Location)
    (h : d.destination = some dest) :
    d.end_drive = some { d with location := dest } := by
  unfold Driver.end_drive
  rw [h]

/-- Witness for the amended C8 theorem at a concrete driver. -/
theorem end_drive_moves_location_only_witness :
    ((⟨"Ida", ⟨0, 0⟩, 1, true, some ⟨2, 3⟩, none⟩ : Driver).destination
        = some ⟨2, 3⟩)
    ∧ (⟨"Ida", ⟨0, 0⟩, 1, true, some ⟨2, 3⟩, none⟩ : Driver).end_drive
        = some { (⟨"Ida", ⟨0, 0⟩, 1, true, some ⟨2, 3⟩, none⟩ : Driver) with
            location := ⟨2, 3⟩ } :=
  ⟨rfl, end_drive_moves_location_only _ _ rfl⟩

/-- C9 (confirmed): for a driver with positive speed, `get_travel_time`
returns the round-half-to-even value of
`manhattan_distance(location, destination) / speed`: the result is
non-negative, lies within half a speed-unit of the exact quotient
(`-s ≤ 2*(s*t - m) ≤ s`), exact halves resolve to an even result, and for
a second driver with the same speed the travel time is monotone
non-decreasing in the Manhattan distance. -/
theorem get_travel_time_round_half_even (d1 d2 : Driver)
    (dest1 dest2 : Location) (hs : 0 < d1.speed)
    (hsame : d2.speed = d1.speed) :
    0 ≤ d1.get_travel_time dest1
    ∧ -d1.speed ≤ 2 * (d1.speed * d1.get_travel_time dest1
        - manhattan_distance d1.location dest1)
    ∧ 2 * (d1.speed * d1.get_travel_time dest1
        - manhattan_distance d1.location dest1) ≤ d1.speed
    ∧ ((2 * (d1.speed * d1.get_travel_time dest1
          - manhattan_distance d1.location dest1) = d1.speed
        ∨ 2 * (d1.speed * d1.get_travel_time dest1
          - manhattan_distance d1.location dest1) = -d1.speed)
        → d1.get_travel_time dest1 % 2 = 0)
    ∧ (manhattan_distance d1.location dest1
          ≤ manhattan_distance d2.location dest2
        → d1.get_travel_time dest1 ≤ d2.get_travel_time dest2) := by
  have hspec := pyRound_spec (manhattan_distance d1.location dest1) d1.speed
    (manhattan_nonneg _ _) hs
  refine ⟨hspec.1, hspec.2.1, hspec.2.2.1, hspec.2.2.2, ?_⟩
  intro hmono
  show pyRound (manhattan_distance d1.location dest1) d1.speed
      ≤ pyRound (manhattan_distance d2.location dest2) d2.speed
  rw [hsame]
  exact pyRound_mono _ _ _ (manhattan_nonneg _ _) hmono hs

/-- Witness for the C9 theorem: two speed-2 drivers at the origin,
destinations at Manhattan distances 3 and 4; travel times are
`round(1.5) = 2` and `round(2) = 2`. -/
theorem get_travel_time_round_half_even_witness :
    0 < (⟨"Ida", ⟨0, 0⟩, 2, true, none, none⟩ : Driver).speed
    ∧ (⟨"Bob", ⟨0, 0⟩, 2, true, none, none⟩ : Driver).speed
        = (⟨"Ida", ⟨0, 0⟩, 2, true, none, none⟩ : Driver).speed
    ∧ (0 ≤ (⟨"Ida", ⟨0, 0⟩, 2, true, none, none⟩ : Driver).get_travel_time ⟨0, 3⟩
      ∧ -(⟨"Ida", ⟨0, 0⟩, 2, true, none, none⟩ : Driver).speed
          ≤ 2 * ((⟨"Ida", ⟨0, 0⟩, 2, true, none, none⟩ : Driver).speed
              * (⟨"Ida", ⟨0, 0⟩, 2, true, none, none⟩ : Driver).get_travel_time ⟨0, 3⟩
            - manhattan_distance (⟨"Ida", ⟨0, 0⟩, 2, true, none, none⟩ : Driver).location ⟨0, 3⟩)
      ∧ 2 * ((⟨"Ida", ⟨0, 0⟩, 2, true, none, none⟩ : Driver).speed
              * (⟨"Ida", ⟨0, 0⟩, 2, true, none, none⟩ : Driver).get_travel_time ⟨0, 3⟩
            - manhattan_distance (⟨"Ida", ⟨0, 0⟩, 2, true, none, none⟩ : Driver).location ⟨0, 3⟩)
          ≤ (⟨"Ida", ⟨0, 0⟩, 2, true, none, none⟩ : Driver).speed
      ∧ ((2 * ((⟨"Ida", ⟨0, 0⟩, 2, true, none, none⟩ : Driver).speed
              * (⟨"Ida", ⟨0, 0⟩, 2, true, none, none⟩ : Driver).get_travel_time ⟨0, 3⟩
            - manhattan_distance (⟨"Ida", ⟨0, 0⟩, 2, true, none, none⟩ : Driver).location ⟨0, 3⟩)
            = (⟨"Ida", ⟨0, 0⟩, 2, true, none, none⟩ : Driver).speed
          ∨ 2 * ((⟨"Ida", ⟨0, 0⟩, 2, true, none, none⟩ : Driver).speed
              * (⟨"Ida", ⟨0, 0⟩, 2, true, none, none⟩ : Driver).get_travel_time ⟨0, 3⟩
            - manhattan_distance (⟨"Ida", ⟨0, 0⟩, 2, true, none, none⟩ : Driver).location ⟨0, 3⟩)
            = -(⟨"Ida", ⟨0, 0⟩, 2, true, none, none⟩ : Driver).speed)
          → (⟨"Ida", ⟨0, 0⟩, 2, true, none, none⟩ : Driver).get_travel_time ⟨0, 3⟩ % 2 = 0)
      ∧ (manhattan_distance (⟨"Ida", ⟨0, 0⟩, 2, true, none, none⟩ : Driver).location ⟨0, 3⟩
            ≤ manhattan_distance (⟨"Bob", ⟨0, 0⟩, 2, true, none, none⟩ : Driver).location ⟨0, 4⟩
          → (⟨"Ida", ⟨0, 0⟩, 2, true, none, none⟩ : Driver).get_travel_time ⟨0, 3⟩
              ≤ (⟨"Bob", ⟨0, 0⟩, 2, true, none, none⟩ : Driver).get_travel_time ⟨0, 4⟩)) :=
  ⟨by decide, rfl,
    get_travel_time_round_half_even
      ⟨"Ida", ⟨0, 0⟩, 2, true, none, none⟩
      ⟨"Bob", ⟨0, 0⟩, 2, true, none, none⟩
      ⟨0, 3⟩ ⟨0, 4⟩ (by decide) rfl⟩

/-- C10 (confirmed): `Event.__eq__` holds exactly when the two
timestamps are equal and `Event.__lt__` exactly when the first timestamp
is strictly smaller, for any two events of any variant and payload; in
particular a `Pickup` and a `Cancellation` scheduled for the same tick
compare equal. -/
theorem event_comparisons_timestamp_only (e1 e2 : Event) (t : Int)
    (r r' : Rider) (d : Driver) :
    (Event.pyEq e1 e2 = true ↔ e1.timestamp = e2.timestamp)
    ∧ (Event.pyLt e1 e2 = true ↔ e1.timestamp < e2.timestamp)
    ∧ Event.pyEq (Event.pickup t r d) (Event.cancellation t r') = true := by
  refine ⟨?_, ?_, ?_⟩
  · simp [Event.pyEq]
  · simp [Event.pyLt]
  · simp [Event.pyEq, Event.timestamp]
